import Mathlib

/-!
Verification of the intent-routing and symbol-extraction core of the
stock-market agent (`stock_agent.py`).

The embedding is a shallow one: each Python function of the agent becomes an
executable Lean definition over `String` / `List Char`; the regular
expressions used by the agent are hand-compiled into equivalent character
scanners; the external collaborators (yfinance, the Alpha Vantage HTTP API,
the `.env` file, DuckDuckGo, numpy and the LLM completion endpoint) are
abstracted into an `Env` record of oracles, since their code is not part of
the repository.  Python exceptions are modelled by `Except String`.
Character classes are modelled at ASCII granularity (all inputs appearing in
the claims are ASCII); floating-point numbers are modelled by `ℚ`.
-/

/-- ASCII model of Python `str.upper()` (`Char.toUpper` upcases `a`-`z`). -/
def pyUpper (s : String) : String := String.mk (s.toList.map Char.toUpper)

/-- ASCII model of Python `str.lower()`. -/
def pyLower (s : String) : String := String.mk (s.toList.map Char.toLower)

/-- `lstartsWith needle hay`: does `hay` start with `needle`? -/
def lstartsWith : List Char → List Char → Bool
  | [], _ => true
  | _ :: _, [] => false
  | a :: as, b :: bs => a == b && lstartsWith as bs

/-- `lcontains needle hay`: does `needle` occur as a contiguous run of
`hay`?  This is Python's `needle in hay` on strings. -/
def lcontains (needle : List Char) : List Char → Bool
  | [] => lstartsWith needle []
  | b :: bs => lstartsWith needle (b :: bs) || lcontains needle bs

/-- Python `needle in hay` for strings. -/
def subStr (needle hay : String) : Bool := lcontains needle.toList hay.toList

/-- Does any needle of the list occur in `hay`?  Models an alternation
`a|b|...` of literal words inside `re.search`. -/
def anySub (needles : List String) (hay : String) : Bool :=
  needles.any (fun n => subStr n hay)

/-- Python `\s` (ASCII part): the whitespace characters of `re`. -/
def wsp (c : Char) : Bool :=
  c == ' ' || c == '\t' || c == '\n' || c == '\r' || c == '\x0b' || c == '\x0c'

/-- Skip a greedy `\s*`. -/
def skipWs (s : List Char) : List Char := s.dropWhile wsp

/-- Length of the greedy `\s*` run. -/
def wsLen (s : List Char) : Nat := (s.takeWhile wsp).length

/-- Length of the greedy `\d+` run (0 when the first char is not a digit). -/
def digLen (s : List Char) : Nat := (s.takeWhile Char.isDigit).length

/-- The four binary operators of the pattern `[+\-*/]`. -/
def isArithOp (c : Char) : Bool := c == '+' || c == '-' || c == '*' || c == '/'

/-- Generic `re.search`: does the position matcher fire anywhere?  The
patterns used by the agent never match the empty string, so the final empty
position need not be tried. -/
def scanAny (p : List Char → Bool) : List Char → Bool
  | [] => false
  | c :: t => p (c :: t) || scanAny p t

/-- `.*lit` after a prefix already consumed: does `lit` occur later with no
newline in between?  (Python `.` does not match `\n`.) -/
def thenNoNl (lit : List Char) : List Char → Bool
  | [] => lstartsWith lit []
  | c :: t => lstartsWith lit (c :: t) || (c != '\n' && thenNoNl lit t)

/-- `re.search(a ++ ".*" ++ b, hay)` for literal `a`, `b`. -/
def dotStarPat (a b : String) (hay : String) : Bool :=
  scanAny (fun s => lstartsWith a.toList s && thenNoNl b.toList (s.drop a.length))
    hay.toList

/-! ### The intent classifier `_decide_tool` (stock_agent.py, lines 409-489) -/

/-- The seven registered tool names of `_create_tools`. -/
inductive ToolName where
  | get_stock_price
  | get_stock_info
  | get_historical_data
  | calculate_average_price
  | get_crypto_price
  | web_search
  | mathematical_calculation
deriving DecidableEq

/-- Position matcher for `\d+\s*[+\-*/]\s*\d+`. -/
def mathPat1At (s : List Char) : Bool :=
  let d1 := digLen s
  if d1 == 0 then false else
  match skipWs (s.drop d1) with
  | c :: r => isArithOp c && digLen (skipWs r) != 0
  | [] => false

/-- Position matcher for `\d+\s*%\s*of\s*\d+`. -/
def mathPat2At (s : List Char) : Bool :=
  let d1 := digLen s
  if d1 == 0 then false else
  match skipWs (s.drop d1) with
  | '%' :: r =>
    let r2 := skipWs r
    lstartsWith "of".toList r2 && digLen (skipWs (r2.drop 2)) != 0
  | _ => false

/-- Position matcher for `sqrt\s*\(`. -/
def mathPat3At (s : List Char) : Bool :=
  lstartsWith "sqrt".toList s &&
    (match skipWs (s.drop 4) with
     | '(' :: _ => true
     | _ => false)

/-- Position matcher for a trig call `w\s*\(` with a three-letter name. -/
def trigAt (w : String) (s : List Char) : Bool :=
  lstartsWith w.toList s &&
    (match skipWs (s.drop 3) with
     | '(' :: _ => true
     | _ => false)

/-- Stage 1 of `_decide_tool`: the `math_patterns` loop, applied to the
lower-cased message. -/
def mathStage1 (lower : String) : Bool :=
  scanAny mathPat1At lower.toList || scanAny mathPat2At lower.toList ||
  scanAny mathPat3At lower.toList ||
  scanAny (fun s => trigAt "sin" s || trigAt "cos" s || trigAt "tan" s) lower.toList

/-- Stage 2 of `_decide_tool`: `any(char in message for char in [...])`,
applied to the original (not lower-cased) message. -/
def mathStage2 (message : String) : Bool :=
  anySub ["+", "-", "*", "/", "%", "=", "sqrt", "sin", "cos", "tan", "log"] message

/-- Stage 3: the `price_patterns` loop on the lower-cased message. -/
def priceStage (lower : String) : Bool :=
  anySub ["precio", "price", "cotización", "cuesta", "cost", "valor", "value"] lower ||
  (anySub ["cuánto cuesta", "how much"] lower || dotStarPat "what" "price" lower) ||
  anySub ["precio actual", "current price"] lower

/-- The nested crypto check inside stage 3. -/
def cryptoHit (lower : String) : Bool :=
  anySub ["bitcoin", "btc", "ethereum", "eth", "crypto", "criptomoneda"] lower

/-- Stage 4: the `info_patterns` loop. -/
def infoStage (lower : String) : Bool :=
  anySub ["información", "info", "detalles", "details", "market cap", "volumen",
          "volume"] lower ||
  (anySub ["capitalización", "capitalization"] lower ||
   dotStarPat "52" "week" lower || anySub ["high", "low"] lower)

/-- Stage 5: the `historical_patterns` loop. -/
def histStage (lower : String) : Bool :=
  anySub ["histórico", "historical", "ayer", "yesterday", "cambio", "change",
          "trend"] lower ||
  anySub ["último", "last", "semana", "week", "mes", "month", "año", "year"] lower

/-- Stage 6: the `average_patterns` loop. -/
def avgStage (lower : String) : Bool :=
  anySub ["promedio", "average", "media", "mean"] lower ||
  anySub ["última semana", "last week", "últimos días", "last days"] lower

/-- Stage 7: the `search_patterns` loop. -/
def searchStage (lower : String) : Bool :=
  anySub ["buscar", "search", "noticias", "news", "encontrar", "find"] lower ||
  anySub ["últimas noticias", "latest news", "información sobre"] lower

/-! ### The symbol resolver `_extract_symbol_robust` (lines 491-525) -/

/-- The `stock_mapping` dictionary in its Python 3.7 insertion order. -/
def stockMapping : List (String × String) :=
  [("APPLE", "AAPL"), ("AAPL", "AAPL"),
   ("TESLA", "TSLA"), ("TSLA", "TSLA"),
   ("MICROSOFT", "MSFT"), ("MSFT", "MSFT"),
   ("GOOGLE", "GOOGL"), ("GOOGL", "GOOGL"),
   ("AMAZON", "AMZN"), ("AMZN", "AMZN"),
   ("META", "META"), ("FACEBOOK", "META"),
   ("NETFLIX", "NFLX"), ("NFLX", "NFLX"),
   ("NVIDIA", "NVDA"), ("NVDA", "NVDA"),
   ("BITCOIN", "BTC"), ("BTC", "BTC"),
   ("ETHEREUM", "ETH"), ("ETH", "ETH")]

/-- The `for key, symbol in stock_mapping.items()` loop: first key (in
insertion order) occurring as a substring of the upper-cased message wins. -/
def scanDict : List (String × String) → String → Option String
  | [], _ => none
  | (k, v) :: rest, mu => if subStr k mu then some v else scanDict rest mu

/-- A word character of Python `\w` (ASCII part). -/
def isWordChar (c : Char) : Bool := c.isAlpha || c.isDigit || c == '_'

/-- Split into the maximal runs of word characters (the `\b`-delimited
tokens of the upper-cased message). -/
def splitTokensAux (cur : List Char) : List Char → List (List Char)
  | [] => if cur.isEmpty then [] else [cur.reverse]
  | c :: t =>
    if isWordChar c then splitTokensAux (c :: cur) t
    else if cur.isEmpty then splitTokensAux [] t
    else cur.reverse :: splitTokensAux [] t

/-- An uppercase ASCII letter. -/
def isUpperAZ (c : Char) : Bool := 'A' ≤ c && c ≤ 'Z'

/-- `re.findall(r'\b[A-Z]{3,5}\b', message_upper)`: exactly the maximal
word-character runs made only of `A`-`Z` with length 3 to 5 (a run bounded
by word boundaries can only match whole). -/
def tickerCands (mu : String) : List String :=
  ((splitTokensAux [] mu.toList).filter
    (fun tk => tk.all isUpperAZ && 3 ≤ tk.length && tk.length ≤ 5)).map
    (fun tk => String.mk tk)

/-- The fixed common-English-word stoplist `exclude_words`. -/
def excludeWords : List String :=
  ["THE", "AND", "FOR", "ARE", "BUT", "NOT", "YOU", "ALL", "CAN", "HAD",
   "HER", "WAS", "ONE", "OUR", "OUT", "DAY", "GET", "HAS", "HIM", "HIS",
   "HOW", "ITS", "MAY", "NEW", "NOW", "OLD", "SEE", "TWO", "WAY", "WHO",
   "BOY", "DID", "MAN", "MEN", "PUT", "SAY", "SHE", "TOO", "USE"]

/-- The final loop of `_extract_symbol_robust`: first candidate that is not
in the stoplist (and has length at least 3, always true here) is returned. -/
def firstTicker : List String → Option String
  | [] => none
  | t :: rest =>
    if !(excludeWords.contains t) && 3 ≤ t.length then some t else firstTicker rest

/-- `_extract_symbol_robust`: dictionary scan first, then the ticker-token
scan with the stoplist. -/
def extract_symbol_robust (message : String) : Option String :=
  let mu := pyUpper message
  match scanDict stockMapping mu with
  | some s => some s
  | none => firstTicker (tickerCands mu)

/-- `_decide_tool`: the ordered first-match-wins cascade. -/
def decide_tool (message : String) : Option ToolName :=
  let lower := pyLower message
  if mathStage1 lower then some .mathematical_calculation
  else if mathStage2 message then some .mathematical_calculation
  else if priceStage lower then
    (if cryptoHit lower then some .get_crypto_price else some .get_stock_price)
  else if infoStage lower then some .get_stock_info
  else if histStage lower then some .get_historical_data
  else if avgStage lower then some .calculate_average_price
  else if searchStage lower then some .web_search
  else
    match extract_symbol_robust message with
    | some _ => some .get_stock_price
    | none => none

/-! ### External collaborators

The data providers, the `.env` file, numpy and the completion endpoint are
outside the repository; they are abstracted into an environment of oracles.
A decoded JSON response is modelled by `Json`; a call that raises a Python
exception is modelled by `Except.error` carrying `str(e)`. -/

/-- A decoded JSON value (the result of `response.json()`). -/
inductive Json where
  | null
  | str (s : String)
  | num (q : ℚ)
  | obj (fields : List (String × Json))
  | arr (elems : List Json)

/-- Python truthiness of a decoded JSON value. -/
def jsonTruthy : Json → Bool
  | .null => false
  | .str s => !s.isEmpty
  | .num q => q != 0
  | .obj l => !l.isEmpty
  | .arr l => !l.isEmpty

/-- Decimal rendering of a rational whose denominator is 1; other
denominators keep the fraction form.  Abstracts Python's `str` on the
numbers a JSON response can carry (no claim inspects this rendering). -/
def qRepr (q : ℚ) : String :=
  if q.den == 1 then toString q.num else toString q.num ++ "/" ++ toString q.den

/-- Python `str(value)` for an interpolated JSON value. -/
def pyStrOfJson : Json → String
  | .null => "None"
  | .str s => s
  | .num q => qRepr q
  | .obj _ => "<dict>"
  | .arr _ => "<list>"

/-- `data.get(key)` / `key in data` on a decoded JSON object. -/
def jsonGet (j : Json) (k : String) : Option Json :=
  match j with
  | .obj fields => fields.lookup k
  | _ => none

/-- The keys of a decoded JSON object, in document order
(`data.keys()`). -/
def jsonKeys : Json → List String
  | .obj fields => fields.map (fun kv => kv.1)
  | _ => []

/-- The oracle environment: one field per external effect the agent
performs.  `yfInfo s` is `yf.Ticker(s).info` (the string is exactly what the
agent passes to `yf.Ticker`); `yfHistory s p` is the `Close` column of
`yf.Ticker(s).history(period=p)` (empty list for an empty frame);
`httpGetJson url` is `requests.get(url, timeout=10).json()`;
`dotEnvContent` is the text of the `.env` file (`none` when opening raises
`FileNotFoundError`); `ddgResults q` is the `(title, body)` list of the
DuckDuckGo search; `llmComplete m` is `self.llm.invoke(m)` rendered to its
content text; `npFun`/`npPi`/`npE` are the numpy functions and constants
visible to `mathematical_calculation`.  The `time.sleep(2)` throttle and
the `print` diagnostics have no denotational content and are omitted. -/
structure Env where
  yfInfo : String → Except String (List (String × Json))
  yfHistory : String → String → Except String (List ℚ)
  httpGetJson : String → Except String Json
  dotEnvContent : Option String
  ddgResults : String → Except String (List (String × String))
  llmComplete : String → Except String String
  npFun : String → ℚ → ℚ
  npPi : ℚ
  npE : ℚ

/-! ### `_load_env_file` (lines 238-252) -/

/-- `content.lstrip(BOM)`: drop every leading U+FEFF. -/
def stripBom (s : String) : String :=
  String.mk (s.toList.dropWhile (fun c => c == '\uFEFF'))

/-- Python `str.splitlines` restricted to `\n`, `\r\n` and `\r`. -/
def splitLinesAux (cur : List Char) : List Char → List (List Char)
  | [] => if cur.isEmpty then [] else [cur.reverse]
  | '\r' :: '\n' :: t => cur.reverse :: splitLinesAux [] t
  | '\n' :: t => cur.reverse :: splitLinesAux [] t
  | '\r' :: t => cur.reverse :: splitLinesAux [] t
  | c :: t => splitLinesAux (c :: cur) t

/-- Python `str.strip()` (ASCII whitespace). -/
def pyStripL (l : List Char) : List Char :=
  ((l.dropWhile wsp).reverse.dropWhile wsp).reverse

/-- Python `str.strip()` on strings. -/
def pyStrip (s : String) : String := String.mk (pyStripL s.toList)

/-- `line.split(sep="=", maxsplit=1)`: the part before the first `=` and
the part after it. -/
def splitAtEq : List Char → (List Char × List Char)
  | [] => ([], [])
  | '=' :: t => ([], t)
  | c :: t => let (a, b) := splitAtEq t; (c :: a, b)

/-- `env_vars[key] = value` on a dict modelled as an assoc list: replace in
place or append. -/
def upsert (k v : String) : List (String × String) → List (String × String)
  | [] => [(k, v)]
  | (k2, v2) :: rest => if k2 == k then (k2, v) :: rest else (k2, v2) :: upsert k v rest

/-- The line loop of `_load_env_file`. -/
def parseEnvContent (content : String) : List (String × String) :=
  (splitLinesAux [] (stripBom content).toList).foldl
    (fun acc lineL =>
      let line := pyStrip (String.mk lineL)
      if !line.isEmpty && !lstartsWith "#".toList line.toList && subStr "=" line then
        let (k, v) := splitAtEq line.toList
        upsert (pyStrip (String.mk k)) (pyStrip (String.mk v)) acc
      else acc) []

/-- `_load_env_file`: `{}` when the file is missing. -/
def load_env_file (env : Env) : List (String × String) :=
  match env.dotEnvContent with
  | none => []
  | some content => parseEnvContent content

/-- `env_vars.get("ALPHA_VANTAGE_API_KEY")` followed by the `if not
api_key` falsiness test (an empty string counts as not configured). -/
def avApiKey (env : Env) : Option String :=
  match (load_env_file env).lookup "ALPHA_VANTAGE_API_KEY" with
  | none => none
  | some k => if k.isEmpty then none else some k

/-! ### `"%.2f"` formatting -/

/-- Round the fraction `n / d` (with `d` positive) to the nearest integer,
ties to even (the rounding of `"%.2f"` on an exactly representable value).
Stated over `ℤ` so that it evaluates inside the kernel. -/
def rheInt (n d : ℤ) : ℤ :=
  let f := Int.fdiv n d
  let twice := 2 * (n - f * d)
  if twice < d then f
  else if d < twice then f + 1
  else if f % 2 = 0 then f else f + 1

/-- Two-digit zero-padded rendering of a value below 100. -/
def natPad2 (n : Nat) : String := if n < 10 then "0" ++ toString n else toString n

/-- `f"{x:.2f}"` over the exact rational model of the float `x`. -/
def fmt2 (q : ℚ) : String :=
  let n := rheInt (100 * q.num) (Int.ofNat q.den)
  let a := n.natAbs
  (if n < 0 then "-" else "") ++ toString (a / 100) ++ "." ++ natPad2 (a % 100)

/-! ### `float(...)` on a JSON value -/

/-- Digits to a natural number. -/
def natOfDigits (l : List Char) : Nat :=
  l.foldl (fun a c => a * 10 + (c.toNat - 48)) 0

/--`float(s)` on a plain decimal string (sign, digits, optional fractional
part; exponents are not produced by the provider responses modelled here).
`none` models `ValueError`. -/
def parseFloatQ (s : String) : Option ℚ :=
  let l0 := pyStripL s.toList
  let sgnNeg : Bool := match l0 with
    | '-' :: _ => true
    | _ => false
  let l := match l0 with
    | '-' :: t => t
    | '+' :: t => t
    | t => t
  let ip := l.takeWhile Char.isDigit
  let rest := l.drop ip.length
  let mk2 (ipart : List Char) (fpart : List Char) : ℚ :=
    let scale : Nat := 10 ^ fpart.length
    let mag : Nat := natOfDigits ipart * scale + natOfDigits fpart
    if sgnNeg then mkRat (-(mag : Int)) scale else mkRat (mag : Int) scale
  match rest with
  | [] => if ip.isEmpty then none else some (mk2 ip [])
  | '.' :: t =>
    let fp := t.takeWhile Char.isDigit
    if !(t.drop fp.length).isEmpty then none
    else if ip.isEmpty && fp.isEmpty then none
    else some (mk2 ip fp)
  | _ => none

/-- `key in data` failing / `data[key]` raising `KeyError`, and `float()`
raising `ValueError`, as `Except`. -/
def jsonIndex (j : Json) (k : String) : Except String Json :=
  match j with
  | .obj fields =>
    match fields.lookup k with
    | some v => .ok v
    | none => .error ("KeyError: " ++ k)
  | _ => .error "TypeError: value is not a dict"

/-- `float(v)` on a decoded JSON value. -/
def pyFloat (j : Json) : Except String ℚ :=
  match j with
  | .num q => .ok q
  | .str s =>
    match parseFloatQ s with
    | some q => .ok q
    | none => .error ("could not convert string to float: " ++ s)
  | _ => .error "TypeError: float() argument"

/-! ### The Alpha Vantage fallback adapters (lines 214-407) -/

/-- `"429" in str(e) or "Too Many Requests" in str(e)`: the rate-limit
signal that activates the fallback source. -/
def isRateLimited (e : String) : Bool :=
  subStr "429" e || subStr "Too Many Requests" e

/-- `_get_stock_price_alpha_vantage` (lines 214-236). -/
def get_stock_price_alpha_vantage (env : Env) (symbol : String) : String :=
  match avApiKey env with
  | none => "Alpha Vantage API key not configured for " ++ symbol
  | some apiKey =>
    let url := "https://www.alphavantage.co/query?function=GLOBAL_QUOTE&symbol=" ++
      symbol ++ "&apikey=" ++ apiKey
    match env.httpGetJson url with
    | .error e => "Error fetching price from Alpha Vantage for " ++ symbol ++ ": " ++ e
    | .ok data =>
      match jsonGet data "Global Quote" with
      | some quote =>
        if jsonTruthy quote then
          "Current price of " ++ pyUpper symbol ++ " (Alpha Vantage): $" ++
            pyStrOfJson ((jsonGet quote "05. price").getD (.str "N/A"))
        else "No data available for " ++ symbol ++ " from Alpha Vantage"
      | none => "No data available for " ++ symbol ++ " from Alpha Vantage"

/-- `_get_stock_info_alpha_vantage` (lines 254-281). -/
def get_stock_info_alpha_vantage (env : Env) (symbol : String) : String :=
  match avApiKey env with
  | none => "Alpha Vantage API key not configured for " ++ symbol
  | some apiKey =>
    let url := "https://www.alphavantage.co/query?function=OVERVIEW&symbol=" ++
      symbol ++ "&apikey=" ++ apiKey
    match env.httpGetJson url with
    | .error e =>
      "Error fetching detailed info from Alpha Vantage for " ++ symbol ++ ": " ++ e
    | .ok data =>
      if jsonTruthy data && (jsonGet data "Symbol").isSome then
        "Stock Information for " ++ pyUpper symbol ++ " (Alpha Vantage):\n" ++
        "Current Price: $" ++ pyStrOfJson ((jsonGet data "PriceToBookRatio").getD (.str "N/A")) ++ "\n" ++
        "Market Cap: $" ++ pyStrOfJson ((jsonGet data "MarketCapitalization").getD (.str "N/A")) ++ "\n" ++
        "Volume: " ++ pyStrOfJson ((jsonGet data "Volume").getD (.str "N/A")) ++ "\n" ++
        "52 Week High: $" ++ pyStrOfJson ((jsonGet data "52WeekHigh").getD (.str "N/A")) ++ "\n" ++
        "52 Week Low: $" ++ pyStrOfJson ((jsonGet data "52WeekLow").getD (.str "N/A")) ++ "\n" ++
        "Sector: " ++ pyStrOfJson ((jsonGet data "Sector").getD (.str "N/A")) ++ "\n" ++
        "Industry: " ++ pyStrOfJson ((jsonGet data "Industry").getD (.str "N/A")) ++ "\n"
      else "No detailed data available for " ++ symbol ++ " from Alpha Vantage"

/-- The `function_map` of `_get_historical_data_alpha_vantage`. -/
def avFunctionMap : List (String × String) :=
  [("1d", "TIME_SERIES_INTRADAY"), ("5d", "TIME_SERIES_INTRADAY"),
   ("1mo", "TIME_SERIES_MONTHLY"), ("3mo", "TIME_SERIES_MONTHLY"),
   ("6mo", "TIME_SERIES_MONTHLY"), ("1y", "TIME_SERIES_MONTHLY"),
   ("2y", "TIME_SERIES_MONTHLY"), ("5y", "TIME_SERIES_MONTHLY"),
   ("10y", "TIME_SERIES_MONTHLY"), ("ytd", "TIME_SERIES_MONTHLY"),
   ("max", "TIME_SERIES_MONTHLY")]

/-- The `for key in data.keys()` loop: first key containing
`"Time Series"`. -/
def findTimeSeriesKey (data : Json) : Option String :=
  match data with
  | .obj fields => ((fields.find? (fun kv => subStr "Time Series" kv.1)).map
      (fun kv => kv.1))
  | _ => none

/-- Insert into a list kept in descending order. -/
def insertDesc (x : String) : List String → List String
  | [] => [x]
  | y :: t => if decide (y < x) then x :: y :: t else y :: insertDesc x t

/-- `sorted(keys, reverse=True)`: descending code-point order (Python and
Lean compare strings by code points alike). -/
def sortDesc : List String → List String
  | [] => []
  | x :: t => insertDesc x (sortDesc t)

/-- `float(time_series[d]["4. close"])` for two dates. -/
def avTwoCloses (ts : Json) (d1 d2 : String) : Except String (ℚ × ℚ) := do
  let v1 ← jsonIndex ts d1
  let c1 ← jsonIndex v1 "4. close"
  let q1 ← pyFloat c1
  let v2 ← jsonIndex ts d2
  let c2 ← jsonIndex v2 "4. close"
  let q2 ← pyFloat c2
  .ok (q1, q2)

/-- `_get_historical_data_alpha_vantage` (lines 283-340). -/
def get_historical_data_alpha_vantage (env : Env) (symbol : String) (period : String) :
    String :=
  match avApiKey env with
  | none => "Alpha Vantage API key not configured for " ++ symbol
  | some apiKey =>
    let function := (avFunctionMap.lookup period).getD "TIME_SERIES_MONTHLY"
    let url := "https://www.alphavantage.co/query?function=" ++ function ++
      "&symbol=" ++ symbol ++ "&apikey=" ++ apiKey
    match env.httpGetJson url with
    | .error e =>
      "Error fetching historical data from Alpha Vantage for " ++ symbol ++ ": " ++ e
    | .ok data =>
      let noData := "No historical data available for " ++ symbol ++ " from Alpha Vantage"
      match findTimeSeriesKey data with
      | some tsKey =>
        match jsonGet data tsKey with
        | some ts =>
          if jsonTruthy ts then
            let dates := sortDesc (jsonKeys ts)
            if 2 ≤ dates.length then
              match avTwoCloses ts (dates.getD 0 "") (dates.getD 1 "") with
              | .ok (latest, previous) =>
                let change := (latest - previous) / previous * 100
                "Historical data for " ++ pyUpper symbol ++ " (" ++ period ++
                  ") - Alpha Vantage:\n" ++
                "Latest Close: $" ++ fmt2 latest ++ "\n" ++
                "Previous Close: $" ++ fmt2 previous ++ "\n" ++
                "Change: " ++ fmt2 change ++ "%\n"
              | .error e =>
                "Error fetching historical data from Alpha Vantage for " ++ symbol ++
                  ": " ++ e
            else noData
          else noData
        | none => noData
      | none => noData

/-- The close-collection loop of `_calculate_average_price_alpha_vantage`. -/
def avCloses (ts : Json) : List String → Except String (List ℚ)
  | [] => .ok []
  | d :: rest => do
    let v ← jsonIndex ts d
    let c ← jsonIndex v "4. close"
    let q ← pyFloat c
    let qs ← avCloses ts rest
    .ok (q :: qs)

/-- `_calculate_average_price_alpha_vantage` (lines 342-375). -/
def calculate_average_price_alpha_vantage (env : Env) (symbol : String) (days : Nat) :
    String :=
  match avApiKey env with
  | none => "Alpha Vantage API key not configured for " ++ symbol
  | some apiKey =>
    let url := "https://www.alphavantage.co/query?function=TIME_SERIES_DAILY&symbol=" ++
      symbol ++ "&apikey=" ++ apiKey
    match env.httpGetJson url with
    | .error e =>
      "Error calculating average from Alpha Vantage for " ++ symbol ++ ": " ++ e
    | .ok data =>
      let noData := "No data available for calculating average of " ++ symbol ++
        " from Alpha Vantage"
      match jsonGet data "Time Series (Daily)" with
      | some ts =>
        if jsonTruthy ts then
          let dates := sortDesc (jsonKeys ts)
          let recent := dates.take (min days dates.length)
          match avCloses ts recent with
          | .ok prices =>
            if !prices.isEmpty then
              "Average price of " ++ pyUpper symbol ++ " over last " ++
                toString prices.length ++ " days (Alpha Vantage): $" ++
                fmt2 ((prices.foldl (· + ·) 0) / (prices.length : ℚ))
            else noData
          | .error e =>
            "Error calculating average from Alpha Vantage for " ++ symbol ++ ": " ++ e
        else noData
      | none => noData

/-- The `crypto_symbols` dictionary of `_get_crypto_price_alpha_vantage`. -/
def avCryptoSymbols : List (String × String) :=
  [("BTC", "BTC"), ("ETH", "ETH"), ("ADA", "ADA"), ("DOGE", "DOGE")]

/-- `_get_crypto_price_alpha_vantage` (lines 377-407). -/
def get_crypto_price_alpha_vantage (env : Env) (symbol : String) : String :=
  match avApiKey env with
  | none => "Alpha Vantage API key not configured for " ++ symbol
  | some apiKey =>
    let cryptoSymbol := (avCryptoSymbols.lookup (pyUpper symbol)).getD (pyUpper symbol)
    let url := "https://www.alphavantage.co/query?function=CURRENCY_EXCHANGE_RATE&from_currency=" ++
      cryptoSymbol ++ "&to_currency=USD&apikey=" ++ apiKey
    match env.httpGetJson url with
    | .error e =>
      "Error fetching crypto price from Alpha Vantage for " ++ symbol ++ ": " ++ e
    | .ok data =>
      match jsonGet data "Realtime Currency Exchange Rate" with
      | some exchangeRate =>
        "Current price of " ++ pyUpper symbol ++ " (Alpha Vantage): $" ++
          pyStrOfJson ((jsonGet exchangeRate "5. Exchange Rate").getD (.str "N/A"))
      | none => "No crypto data available for " ++ symbol ++ " from Alpha Vantage"

/-! ### The primary (Yahoo Finance) tool closures of `_create_tools`
(lines 33-171).  Each catches its own exceptions, checks the rate-limit
signal and falls back to the Alpha Vantage twin. -/

/-- `info.get('currentPrice', info.get('regularMarketPrice', 'N/A'))`. -/
def yfCurrentPrice (info : List (String × Json)) : Json :=
  (info.lookup "currentPrice").getD ((info.lookup "regularMarketPrice").getD (.str "N/A"))

/-- `get_stock_price` (lines 33-46). -/
def get_stock_price (env : Env) (symbol : String) : String :=
  match env.yfInfo (pyUpper symbol) with
  | .ok info =>
    "Current price of " ++ pyUpper symbol ++ ": $" ++ pyStrOfJson (yfCurrentPrice info)
  | .error e =>
    if isRateLimited e then get_stock_price_alpha_vantage env symbol
    else "Error fetching price for " ++ symbol ++ ": " ++ e

/-- `get_stock_info` (lines 48-69). -/
def get_stock_info (env : Env) (symbol : String) : String :=
  match env.yfInfo (pyUpper symbol) with
  | .ok info =>
    "Stock Information for " ++ pyUpper symbol ++ ":\n" ++
    "Current Price: $" ++ pyStrOfJson ((info.lookup "currentPrice").getD (.str "N/A")) ++ "\n" ++
    "Previous Close: $" ++ pyStrOfJson ((info.lookup "previousClose").getD (.str "N/A")) ++ "\n" ++
    "Market Cap: $" ++ pyStrOfJson ((info.lookup "marketCap").getD (.str "N/A")) ++ "\n" ++
    "Volume: " ++ pyStrOfJson ((info.lookup "volume").getD (.str "N/A")) ++ "\n" ++
    "52 Week High: $" ++ pyStrOfJson ((info.lookup "fiftyTwoWeekHigh").getD (.str "N/A")) ++ "\n" ++
    "52 Week Low: $" ++ pyStrOfJson ((info.lookup "fiftyTwoWeekLow").getD (.str "N/A")) ++ "\n"
  | .error e =>
    if isRateLimited e then get_stock_info_alpha_vantage env symbol
    else "Error fetching info for " ++ symbol ++ ": " ++ e

/-- `hist['Close'].iloc[-1]`. -/
def lastCloseOf (closes : List ℚ) : ℚ := closes.getLastD 0

/-- `hist['Close'].iloc[-2] if len(hist) > 1 else latest_price`. -/
def prevCloseOf (closes : List ℚ) : ℚ :=
  if 1 < closes.length then closes.getD (closes.length - 2) 0 else lastCloseOf closes

/-- `get_historical_data` (lines 71-96).  The rational division models the
float division of the source; a zero previous close, where the float
semantics differ (`ZeroDivisionError` in Python), is excluded from the
theorems below. -/
def get_historical_data (env : Env) (symbol : String) (period : String) : String :=
  match env.yfHistory (pyUpper symbol) period with
  | .ok closes =>
    if closes.isEmpty then "No historical data available for " ++ pyUpper symbol
    else
      let latest := lastCloseOf closes
      let previous := prevCloseOf closes
      let change := (latest - previous) / previous * 100
      "Historical data for " ++ pyUpper symbol ++ " (" ++ period ++ "):\n" ++
      "Latest Close: $" ++ fmt2 latest ++ "\n" ++
      "Previous Close: $" ++ fmt2 previous ++ "\n" ++
      "Change: " ++ fmt2 change ++ "%\n"
  | .error e =>
    if isRateLimited e then get_historical_data_alpha_vantage env symbol period
    else "Error fetching historical data for " ++ symbol ++ ": " ++ e

/-- `calculate_average_price` (lines 98-117); the period string is
`f"{days}d"`. -/
def calculate_average_price (env : Env) (symbol : String) (days : Nat) : String :=
  match env.yfHistory (pyUpper symbol) (toString days ++ "d") with
  | .ok closes =>
    if closes.isEmpty then "No data available for " ++ pyUpper symbol
    else
      "Average price of " ++ pyUpper symbol ++ " over last " ++ toString days ++
        " days: $" ++
        fmt2 ((closes.foldl (· + ·) 0) / (closes.length : ℚ))
  | .error e =>
    if isRateLimited e then calculate_average_price_alpha_vantage env symbol days
    else "Error calculating average for " ++ symbol ++ ": " ++ e

/-- `get_crypto_price` (lines 119-134): the primary lookup uses the
`-USD`-suffixed ticker. -/
def get_crypto_price (env : Env) (symbol : String) : String :=
  match env.yfInfo (pyUpper symbol ++ "-USD") with
  | .ok info =>
    "Current price of " ++ pyUpper symbol ++ ": $" ++ pyStrOfJson (yfCurrentPrice info)
  | .error e =>
    if isRateLimited e then get_crypto_price_alpha_vantage env symbol
    else "Error fetching crypto price for " ++ symbol ++ ": " ++ e

/-- The result-formatting loop of `web_search`. -/
def formatResults (i : Nat) : List (String × String) → String
  | [] => ""
  | (title, body) :: rest =>
    toString i ++ ". " ++ title ++ "\n   " ++ body ++ "\n\n" ++ formatResults (i + 1) rest

/-- `web_search` (lines 136-151). -/
def web_search (env : Env) (query : String) : String :=
  match env.ddgResults query with
  | .ok results =>
    if results.isEmpty then "No search results found"
    else "Search results:\n" ++ formatResults 1 results
  | .error e => "Error performing web search: " ++ e

/-! ### `mathematical_calculation` and its `eval` call (lines 153-171)

CPython's `eval` on the arithmetic fragment reachable through the agent is
modelled by a tokenizer, a recursive-descent parser and an evaluator over
exact rationals.  The evaluator treats the numpy functions through the
`npFun` oracle.  A `SyntaxError` (such as the one raised by the juxtaposed
expression `15% of 250`, where the name `of` is followed directly by a
number) is the error `"invalid syntax"`; a `NameError` reports the unknown
name.  Constructs outside this fragment (power, comparisons, tuples,
strings) are not produced by the agent's expression extractor and are
modelled as errors. -/

/-- A token of the Python expression grammar. -/
inductive PyTok where
  | num (q : ℚ)
  | name (s : String)
  | sym (c : Char)

/-- Start of a Python identifier (ASCII). -/
def isNameStart (c : Char) : Bool := c.isAlpha || c == '_'

/-- Continuation of a Python identifier (ASCII). -/
def isNameChar (c : Char) : Bool := c.isAlpha || c.isDigit || c == '_'

/-- A character of a numeric literal run. -/
def isNumChar (c : Char) : Bool := c.isDigit || c == '.'

/-- A punctuation character of the fragment. -/
def isPySym (c : Char) : Bool :=
  c == '+' || c == '-' || c == '*' || c == '/' || c == '%' ||
  c == '(' || c == ')' || c == ','

/-- A numeric literal from its digit-and-dot run. -/
def numTokOfRun (run : List Char) : Except String PyTok :=
  if 2 ≤ run.count '.' then .error "invalid syntax"
  else
    let ip := run.takeWhile Char.isDigit
    let fp := (run.drop ip.length).drop 1
    .ok (.num (mkRat (Int.ofNat (natOfDigits ip * 10 ^ fp.length + natOfDigits fp))
      (10 ^ fp.length)))

/-- The tokenizer; fuel is the input length plus one, ample because every
step consumes at least one character. -/
def pyTokenizeAux : Nat → List Char → Except String (List PyTok)
  | 0, _ => .error "invalid syntax"
  | _ + 1, [] => .ok []
  | fuel + 1, c :: t =>
    if wsp c then pyTokenizeAux fuel t
    else if c.isDigit || (c == '.' && (match t with | d :: _ => d.isDigit | [] => false)) then
      let run := (c :: t).takeWhile isNumChar
      match numTokOfRun run with
      | .ok tok =>
        match pyTokenizeAux fuel ((c :: t).drop run.length) with
        | .ok ts => .ok (tok :: ts)
        | .error e => .error e
      | .error e => .error e
    else if isNameStart c then
      let run := (c :: t).takeWhile isNameChar
      match pyTokenizeAux fuel ((c :: t).drop run.length) with
      | .ok ts => .ok (.name (String.mk run) :: ts)
      | .error e => .error e
    else if isPySym c then
      match pyTokenizeAux fuel t with
      | .ok ts => .ok (.sym c :: ts)
      | .error e => .error e
    else .error "invalid syntax"

/-- Tokenize a whole expression string. -/
def pyTokenize (s : String) : Except String (List PyTok) :=
  pyTokenizeAux (s.length + 1) s.toList

/-- The abstract syntax of the fragment. -/
inductive PyExpr where
  | num (q : ℚ)
  | name (s : String)
  | unop (c : Char) (a : PyExpr)
  | binop (c : Char) (a b : PyExpr)
  | call (f : String) (args : List PyExpr)

/-- Flatten the comma tree produced while parsing an argument list. -/
def argsOf : PyExpr → List PyExpr
  | .binop ',' a b => a :: argsOf b
  | e => [e]

/-- Recursive-descent parser, fuel-indexed so that it evaluates inside the
kernel.  `mode`: 0 = additive expression, 10 = its operator tail (with the
left operand in `acc`), 1 = multiplicative term, 11 = its tail, 2 = unary,
3 = atom, 5 = comma-separated argument list.  Python's left associativity
is realised by the tail modes folding into the accumulator. -/
def parseP : Nat → Nat → Option PyExpr → List PyTok →
    Except String (PyExpr × List PyTok)
  | 0, _, _, _ => .error "invalid syntax"
  | fuel + 1, 0, _, ts =>
    (match parseP fuel 1 none ts with
     | .ok (left, r) => parseP fuel 10 (some left) r
     | .error e => .error e)
  | fuel + 1, 10, some left, ts =>
    (match ts with
     | .sym '+' :: r =>
       (match parseP fuel 1 none r with
        | .ok (rhs, r2) => parseP fuel 10 (some (.binop '+' left rhs)) r2
        | .error e => .error e)
     | .sym '-' :: r =>
       (match parseP fuel 1 none r with
        | .ok (rhs, r2) => parseP fuel 10 (some (.binop '-' left rhs)) r2
        | .error e => .error e)
     | _ => .ok (left, ts))
  | fuel + 1, 1, _, ts =>
    (match parseP fuel 2 none ts with
     | .ok (left, r) => parseP fuel 11 (some left) r
     | .error e => .error e)
  | fuel + 1, 11, some left, ts =>
    (match ts with
     | .sym '*' :: r =>
       (match parseP fuel 2 none r with
        | .ok (rhs, r2) => parseP fuel 11 (some (.binop '*' left rhs)) r2
        | .error e => .error e)
     | .sym '/' :: r =>
       (match parseP fuel 2 none r with
        | .ok (rhs, r2) => parseP fuel 11 (some (.binop '/' left rhs)) r2
        | .error e => .error e)
     | .sym '%' :: r =>
       (match parseP fuel 2 none r with
        | .ok (rhs, r2) => parseP fuel 11 (some (.binop '%' left rhs)) r2
        | .error e => .error e)
     | _ => .ok (left, ts))
  | fuel + 1, 2, _, ts =>
    (match ts with
     | .sym '+' :: r =>
       (match parseP fuel 2 none r with
        | .ok (a, r2) => .ok (.unop '+' a, r2)
        | .error e => .error e)
     | .sym '-' :: r =>
       (match parseP fuel 2 none r with
        | .ok (a, r2) => .ok (.unop '-' a, r2)
        | .error e => .error e)
     | _ => parseP fuel 3 none ts)
  | fuel + 1, 3, _, ts =>
    (match ts with
     | .num q :: r => .ok (.num q, r)
     | .name f :: .sym '(' :: .sym ')' :: r => .ok (.call f [], r)
     | .name f :: .sym '(' :: r =>
       (match parseP fuel 5 none r with
        | .ok (argtree, r2) =>
          (match r2 with
           | .sym ')' :: r3 => .ok (.call f (argsOf argtree), r3)
           | _ => .error "invalid syntax")
        | .error e => .error e)
     | .name x :: r => .ok (.name x, r)
     | .sym '(' :: r =>
       (match parseP fuel 0 none r with
        | .ok (a, r2) =>
          (match r2 with
           | .sym ')' :: r3 => .ok (a, r3)
           | _ => .error "invalid syntax")
        | .error e => .error e)
     | _ => .error "invalid syntax")
  | fuel + 1, 5, _, ts =>
    (match parseP fuel 0 none ts with
     | .ok (e1, r) =>
       (match r with
        | .sym ',' :: r2 =>
          (match parseP fuel 5 none r2 with
           | .ok (e2, r3) => .ok (.binop ',' e1 e2, r3)
           | .error e => .error e)
        | _ => .ok (e1, r))
     | .error e => .error e)
  | _ + 1, _, _, _ => .error "invalid syntax"

/-- Application of a name of `allowed_names`: `abs`, `round`, `min`, `max`,
`sum` from the builtins, and the numpy functions through the oracle.  Any
other name raises `NameError`. -/
def applyFun (env : Env) (f : String) (vs : List ℚ) : Except String ℚ :=
  if f == "sin" || f == "cos" || f == "tan" || f == "log" || f == "exp" || f == "sqrt" then
    match vs with
    | [v] => .ok (env.npFun f v)
    | _ => .error ("TypeError: " ++ f ++ " takes one argument")
  else if f == "abs" then
    match vs with
    | [v] => .ok |v|
    | _ => .error "TypeError: abs takes one argument"
  else if f == "round" then
    match vs with
    | [v] => .ok (mkRat (rheInt v.num (Int.ofNat v.den)) 1)
    | _ => .error "TypeError: round argument shape not modelled"
  else if f == "min" then
    match vs with
    | [] => .error "TypeError: min expected at least one argument"
    | v :: rest => .ok (rest.foldl min v)
  else if f == "max" then
    match vs with
    | [] => .error "TypeError: max expected at least one argument"
    | v :: rest => .ok (rest.foldl max v)
  else if f == "sum" then .error "TypeError: number is not iterable"
  else .error ("name " ++ f ++ " is not defined")

mutual

/-- Evaluation of the fragment over exact rationals.  Bare names: `pi` and
`e` are the numpy constants; a bare function name (a Python function
object, never produced by the agent's extractor) is modelled as an
error. -/
def evalPy (env : Env) : PyExpr → Except String ℚ
  | .num q => .ok q
  | .name s =>
    if s == "pi" then .ok env.npPi
    else if s == "e" then .ok env.npE
    else if s == "abs" || s == "round" || s == "min" || s == "max" || s == "sum" ||
        s == "sin" || s == "cos" || s == "tan" || s == "log" || s == "exp" ||
        s == "sqrt" then
      .error ("function object " ++ s ++ " used as a value")
    else .error ("name " ++ s ++ " is not defined")
  | .unop c a => do
    let v ← evalPy env a
    if c == '-' then .ok (-v) else .ok v
  | .binop c a b => do
    let va ← evalPy env a
    let vb ← evalPy env b
    if c == '+' then .ok (va + vb)
    else if c == '-' then .ok (va - vb)
    else if c == '*' then .ok (va * vb)
    else if c == '/' then
      (if vb == 0 then .error "division by zero" else .ok (va / vb))
    else if c == '%' then
      (if vb == 0 then .error "modulo by zero"
       else .ok (va - vb * ((va / vb).floor : ℚ)))
    else .error "invalid syntax"
  | .call f args => do
    let vs ← evalArgs env args
    applyFun env f vs

/-- Evaluate an argument list left to right. -/
def evalArgs (env : Env) : List PyExpr → Except String (List ℚ)
  | [] => .ok []
  | a :: rest => do
    let v ← evalPy env a
    let vs ← evalArgs env rest
    .ok (v :: vs)

end

/-- `eval(expression, ..., allowed_names)`: tokenize, parse requiring the
whole token stream to be consumed, then evaluate. -/
def pyEval (env : Env) (expression : String) : Except String ℚ :=
  match pyTokenize expression with
  | .error e => .error e
  | .ok toks =>
    match parseP (8 * toks.length + 16) 0 none toks with
    | .ok (a, []) => evalPy env a
    | .ok (_, _ :: _) => .error "invalid syntax"
    | .error e => .error e

/-- `mathematical_calculation` (lines 153-171). -/
def mathematical_calculation (env : Env) (expression : String) : String :=
  match pyEval env expression with
  | .ok v => "Result: " ++ qRepr v
  | .error e => "Error in calculation: " ++ e

/-! ### The expression extractor inside `chat` (lines 592-612)

Each pattern is compiled to a position matcher returning the length of the
(greedy, deterministic) match at that position; `re.findall` scans left to
right, skipping over each match. -/

/-- Match length of `\d+\s*[+\-*/]\s*\d+` at the start. -/
def matchLen1 (s : List Char) : Option Nat :=
  let d1 := digLen s
  if d1 == 0 then none else
  let s1 := s.drop d1
  let w1 := wsLen s1
  match s1.drop w1 with
  | c :: s3 =>
    if isArithOp c then
      let w2 := wsLen s3
      let d2 := digLen (s3.drop w2)
      if d2 == 0 then none else some (d1 + w1 + 1 + w2 + d2)
    else none
  | [] => none

/-- Match length of `\d+\s*%\s*of\s*\d+` at the start. -/
def matchLen2 (s : List Char) : Option Nat :=
  let d1 := digLen s
  if d1 == 0 then none else
  let s1 := s.drop d1
  let w1 := wsLen s1
  match s1.drop w1 with
  | '%' :: s3 =>
    let w2 := wsLen s3
    let s4 := s3.drop w2
    if lstartsWith "of".toList s4 then
      let w3 := wsLen (s4.drop 2)
      let d2 := digLen (s4.drop (2 + w3))
      if d2 == 0 then none else some (d1 + w1 + 1 + w2 + 2 + w3 + d2)
    else none
  | _ => none

/-- Match length of `fname\s*\([^)]+\)` at the start. -/
def matchLenCall (fname : String) (s : List Char) : Option Nat :=
  if lstartsWith fname.toList s then
    let s1 := s.drop fname.length
    let w := wsLen s1
    match s1.drop w with
    | '(' :: s2 =>
      let inner := (s2.takeWhile (fun c => c != ')')).length
      if inner == 0 then none
      else
        match s2.drop inner with
        | ')' :: _ => some (fname.length + w + 1 + inner + 1)
        | _ => none
    | _ => none
  else none

/-- Match length of `sin\s*\([^)]+\)|cos\s*\([^)]+\)|tan\s*\([^)]+\)`. -/
def matchLen4 (s : List Char) : Option Nat :=
  (matchLenCall "sin" s).orElse fun _ =>
    (matchLenCall "cos" s).orElse fun _ => matchLenCall "tan" s

/-- A character of the class `[\d\+\-\*\/\(\)\.\s]`. -/
def exprClassChar (c : Char) : Bool :=
  c.isDigit || c == '+' || c == '-' || c == '*' || c == '/' ||
  c == '(' || c == ')' || c == '.' || wsp c

/-- Match length of `[\d\+\-\*\/\(\)\.\s]+`. -/
def matchLen5 (s : List Char) : Option Nat :=
  let n := (s.takeWhile exprClassChar).length
  if n == 0 then none else some n

/-- `re.findall`: leftmost matches, scanning past each one; fuel-indexed
for kernel evaluation (every step advances at least one character). -/
def findallAux (matchAt : List Char → Option Nat) : Nat → List Char → List (List Char)
  | 0, _ => []
  | _ + 1, [] => []
  | fuel + 1, c :: t =>
    match matchAt (c :: t) with
    | some n =>
      if n ≤ 1 then ((c :: t).take n) :: findallAux matchAt fuel t
      else ((c :: t).take n) :: findallAux matchAt fuel ((c :: t).drop n)
    | none => findallAux matchAt fuel t

/-- `re.findall(pattern, s)` as strings. -/
def pyFindall (matchAt : List Char → Option Nat) (s : String) : List String :=
  (findallAux matchAt (s.length + 1) s.toList).map String.mk

/-- `max(matches, key=len)`: the first match of maximal length. -/
def maxByLen (x : String) : List String → String
  | [] => x
  | y :: t => if x.length < y.length then maxByLen y t else maxByLen x t

/-- One pattern step of the extraction loop: the longest match, stripped,
when the pattern has any match. -/
def tryPat (matchAt : List Char → Option Nat) (message : String) : Option String :=
  match pyFindall matchAt message with
  | m :: ms => some (pyStrip (maxByLen m ms))
  | [] => none

/-- The `math_patterns` loop of `chat` (lines 593-606), on the original
message: first pattern with a match wins, then the longest of its
matches. -/
def extract_expression (message : String) : Option String :=
  (tryPat matchLen1 message).orElse fun _ =>
  (tryPat matchLen2 message).orElse fun _ =>
  (tryPat (matchLenCall "sqrt") message).orElse fun _ =>
  (tryPat matchLen4 message).orElse fun _ =>
  tryPat matchLen5 message

/-! ### The dialogue orchestrator `chat` (lines 551-621) -/

/-- The body of `chat` inside its `try`.  The tool closures catch their own
exceptions, so every tool branch is `ok`; the only step that can still
raise is `self.llm.invoke` on the no-tool path.  The tool lookup by name
over `self.tools` always succeeds because `_create_tools` registers all
seven names, so the dispatch is direct. -/
def chatE (env : Env) (message : String) : Except String String :=
  match decide_tool message with
  | some .get_stock_price =>
    (match extract_symbol_robust message with
     | some symbol => .ok (get_stock_price env symbol)
     | none => .ok "Por favor especifica el símbolo de la acción o criptomoneda (ej: Apple, Tesla, Bitcoin, AAPL, TSLA)")
  | some .get_stock_info =>
    (match extract_symbol_robust message with
     | some symbol => .ok (get_stock_info env symbol)
     | none => .ok "Por favor especifica el símbolo de la acción o criptomoneda (ej: Apple, Tesla, Bitcoin, AAPL, TSLA)")
  | some .get_crypto_price =>
    (match extract_symbol_robust message with
     | some symbol => .ok (get_crypto_price env symbol)
     | none => .ok "Por favor especifica el símbolo de la acción o criptomoneda (ej: Apple, Tesla, Bitcoin, AAPL, TSLA)")
  | some .get_historical_data =>
    (match extract_symbol_robust message with
     | some symbol => .ok (get_historical_data env symbol "1mo")
     | none => .ok "Por favor especifica el símbolo de la acción (ej: Apple, Tesla, AAPL, TSLA)")
  | some .calculate_average_price =>
    (match extract_symbol_robust message with
     | some symbol => .ok (calculate_average_price env symbol 7)
     | none => .ok "Por favor especifica el símbolo de la acción (ej: Apple, Tesla, AAPL, TSLA)")
  | some .web_search => .ok (web_search env message)
  | some .mathematical_calculation =>
    (match extract_expression message with
     | some expression => .ok (mathematical_calculation env expression)
     | none => .ok "Por favor proporciona una expresión matemática válida (ej: 2+2, 15% of 250)")
  | none => env.llmComplete message

/-- `chat`: the `try`/`except` wrapper turning any escaped exception into
the fixed error text. -/
def chat (env : Env) (message : String) : String :=
  match chatE env message with
  | .ok s => s
  | .error e => "Error processing your request: " ++ e

/-- The fixed localized please-specify-a-symbol prompt that `chat` returns
for each symbol-arity capability when no symbol can be resolved (lines
575 and 586: the history/average branch omits the crypto wording). -/
def symbolPrompt (t : ToolName) : String :=
  match t with
  | .get_historical_data | .calculate_average_price =>
    "Por favor especifica el símbolo de la acción (ej: Apple, Tesla, AAPL, TSLA)"
  | _ =>
    "Por favor especifica el símbolo de la acción o criptomoneda (ej: Apple, Tesla, Bitcoin, AAPL, TSLA)"

/-! ### Concrete environments for the closed instances -/

/-- An environment whose primary calls fail with a rate-limit signal, with
no `.env` file and no network for the fallback. -/
def envRate : Env where
  yfInfo := fun _ => .error "429 Client Error: Too Many Requests"
  yfHistory := fun _ _ => .error "429 Client Error: Too Many Requests"
  httpGetJson := fun _ => .error "connection error"
  dotEnvContent := none
  ddgResults := fun _ => .ok []
  llmComplete := fun _ => .ok "hola"
  npFun := fun _ x => x
  npPi := 0
  npE := 0

/-- An environment whose history call returns the single close `5`. -/
def envHist1 : Env where
  yfInfo := fun _ => .error "429 Client Error: Too Many Requests"
  yfHistory := fun _ _ => .ok [5]
  httpGetJson := fun _ => .error "connection error"
  dotEnvContent := none
  ddgResults := fun _ => .ok []
  llmComplete := fun _ => .ok "hola"
  npFun := fun _ x => x
  npPi := 0
  npE := 0

/-- The apostrophe character, U+0027. -/
def apos : Char := Char.ofNat 39

/-- The end-to-end input of the spec scenario, `What's 15% of 250?`. -/
def c4msg : String :=
  String.mk ['W', 'h', 'a', 't', apos, 's', ' ', '1', '5', '%', ' ',
             'o', 'f', ' ', '2', '5', '0', '?']

/-! ### Shared lemmas -/

/-- A tool branch of `chatE` always succeeds: every tool closure catches
its own exceptions, so only the completion path can raise. -/
theorem chatE_ok_of_decide_some (env : Env) (message : String) (t : ToolName)
    (hd : decide_tool message = some t) :
    ∃ s, chatE env message = Except.ok s := by
  unfold chatE
  rw [hd]
  cases t
  case get_stock_price => rcases extract_symbol_robust message <;> exact ⟨_, rfl⟩
  case get_stock_info => rcases extract_symbol_robust message <;> exact ⟨_, rfl⟩
  case get_crypto_price => rcases extract_symbol_robust message <;> exact ⟨_, rfl⟩
  case get_historical_data => rcases extract_symbol_robust message <;> exact ⟨_, rfl⟩
  case calculate_average_price => rcases extract_symbol_robust message <;> exact ⟨_, rfl⟩
  case web_search => exact ⟨_, rfl⟩
  case mathematical_calculation => rcases extract_expression message <;> exact ⟨_, rfl⟩

/-- The stoplist loop returns nothing when every candidate is stopped. -/
theorem firstTicker_none_of_all_excluded :
    ∀ l : List String, (∀ t ∈ l, excludeWords.contains t = true) →
      firstTicker l = none := by
  intro l h
  induction l with
  | nil => rfl
  | cons x xs ih =>
    have hx : excludeWords.contains x = true := h x (by simp)
    unfold firstTicker
    rw [hx]
    simpa using ih (fun t ht => h t (by simp [ht]))

/-- The dictionary scan is the first-match search over the assoc list. -/
theorem scanDict_eq_find? :
    ∀ (l : List (String × String)) (mu : String),
      scanDict l mu = (l.find? (fun kv => subStr kv.1 mu)).map Prod.snd := by
  intro l mu
  induction l with
  | nil => rfl
  | cons kv rest ih =>
    rcases kv with ⟨k, v⟩
    unfold scanDict
    rw [List.find?]
    by_cases hk : subStr k mu
    · simp [hk]
    · simp [hk, ih]

/-! ### The claims -/

/-- C1.  For every input message, `chat` returns a string and never raises:
in the embedding, `chatE` is the body of the `try` and `chat` its
`except Exception` handler, so the only two top-level outcomes are the
body's text or the fixed error text around the exception's message — and an
escaped exception can only come from the completion call on the no-tool
path, every tool branch having caught its own failures. -/
theorem c1_chat_total_outcomes (env : Env) (message : String) :
    (∃ t, chatE env message = Except.ok t ∧ chat env message = t) ∨
    (∃ e, chatE env message = Except.error e ∧ decide_tool message = none ∧
      env.llmComplete message = Except.error e ∧
      chat env message = "Error processing your request: " ++ e) := by
  cases h : chatE env message with
  | ok t =>
    refine Or.inl ⟨t, rfl, ?_⟩
    unfold chat
    rw [h]
  | error e =>
    have hd : decide_tool message = none := by
      by_contra hne
      rcases Option.ne_none_iff_exists.mp hne with ⟨tool, htool⟩
      rcases chatE_ok_of_decide_some env message tool htool.symm with ⟨s, hs⟩
      rw [h] at hs
      exact Except.noConfusion hs
    have hl : env.llmComplete message = Except.error e := by
      unfold chatE at h
      rw [hd] at h
      exact h
    refine Or.inr ⟨e, rfl, hd, hl, ?_⟩
    unfold chat
    rw [h]

/-- C2.  On every capability whose primary (Yahoo Finance) call fails with
a rate-limit signal (error text containing `429` or `Too Many Requests`),
the adapter returns exactly the Alpha Vantage fallback's result — its
success text or its own unavailable/error text — so the primary's
rate-limit error text never reaches the caller. -/
theorem c2_rate_limit_fallback :
    (∀ (env : Env) (s e : String), env.yfInfo (pyUpper s) = Except.error e →
      isRateLimited e = true →
      get_stock_price env s = get_stock_price_alpha_vantage env s) ∧
    (∀ (env : Env) (s e : String), env.yfInfo (pyUpper s) = Except.error e →
      isRateLimited e = true →
      get_stock_info env s = get_stock_info_alpha_vantage env s) ∧
    (∀ (env : Env) (s e : String), env.yfInfo (pyUpper s ++ "-USD") = Except.error e →
      isRateLimited e = true →
      get_crypto_price env s = get_crypto_price_alpha_vantage env s) ∧
    (∀ (env : Env) (s p e : String), env.yfHistory (pyUpper s) p = Except.error e →
      isRateLimited e = true →
      get_historical_data env s p = get_historical_data_alpha_vantage env s p) ∧
    (∀ (env : Env) (s : String) (d : Nat) (e : String),
      env.yfHistory (pyUpper s) (toString d ++ "d") = Except.error e →
      isRateLimited e = true →
      calculate_average_price env s d = calculate_average_price_alpha_vantage env s d) := by
  refine ⟨?_, ?_, ?_, ?_, ?_⟩
  · intro env s e h hr
    simp only [get_stock_price, h, hr, if_true]
  · intro env s e h hr
    simp only [get_stock_info, h, hr, if_true]
  · intro env s e h hr
    simp only [get_crypto_price, h, hr, if_true]
  · intro env s p e h hr
    simp only [get_historical_data, h, hr, if_true]
  · intro env s d e h hr
    simp only [calculate_average_price, h, hr, if_true]

/-- Witness for C2 at a concrete environment whose primary fails with a
`429` error. -/
theorem c2_rate_limit_fallback_witness :
    envRate.yfInfo (pyUpper "aapl") = Except.error "429 Client Error: Too Many Requests" ∧
    isRateLimited "429 Client Error: Too Many Requests" = true ∧
    get_stock_price envRate "aapl" = get_stock_price_alpha_vantage envRate "aapl" :=
  ⟨rfl, by decide,
   c2_rate_limit_fallback.1 envRate "aapl" "429 Client Error: Too Many Requests" rfl
     (by decide)⟩

/-- C3.  Every message matching one of the stage-1 arithmetic shape
patterns classifies to the calculation capability and never to the
equity-price capability, whatever price/info/history/search keywords it
also contains — stage 1 is consulted first. -/
theorem c3_arithmetic_beats_price (message : String)
    (h : mathStage1 (pyLower message) = true) :
    decide_tool message = some ToolName.mathematical_calculation ∧
    decide_tool message ≠ some ToolName.get_stock_price := by
  have h1 : decide_tool message = some ToolName.mathematical_calculation := by
    simp only [decide_tool, h, if_true]
  exact ⟨h1, by rw [h1]; exact fun hc => by cases Option.some.inj hc⟩

/-- Witness for C3 on a message that also contains the price keyword. -/
theorem c3_arithmetic_beats_price_witness :
    mathStage1 (pyLower "price 2+2") = true ∧
    decide_tool "price 2+2" = some ToolName.mathematical_calculation ∧
    decide_tool "price 2+2" ≠ some ToolName.get_stock_price :=
  ⟨by decide, (c3_arithmetic_beats_price "price 2+2" (by decide)).1,
   (c3_arithmetic_beats_price "price 2+2" (by decide)).2⟩

/-- C4 (code bug).  On the input `What's 15% of 250?` classification and
extraction go as specified, but the extracted text `15% of 250` is not a
valid expression for the evaluator (`eval` raises `SyntaxError`: the name
`of` is followed directly by a number), so `chat` returns the calculation
error text and the response does not contain `37.5` — against the spec's
end-to-end scenario and the code's own prompt citing `15% of 250` as a
valid example. -/
theorem c4_percent_of_is_error (env : Env) :
    decide_tool c4msg = some ToolName.mathematical_calculation ∧
    extract_expression c4msg = some "15% of 250" ∧
    chat env c4msg = "Error in calculation: invalid syntax" ∧
    subStr "37.5" (chat env c4msg) = false := by
  refine ⟨by decide, by decide, rfl, ?_⟩
  have h : chat env c4msg = "Error in calculation: invalid syntax" := rfl
  rw [h]
  decide

/-- C5 counterexample.  The message `What is the day` consists only of
common English words and contains no ticker, yet the resolver returns
`WHAT`: the stoplist holds only three-letter words, so the four-letter
token `WHAT` survives. -/
theorem c5_stoplist_counterexample :
    extract_symbol_robust "What is the day" = some "WHAT" ∧
    extract_symbol_robust "What is the day" ≠ none := by
  refine ⟨by decide, ?_⟩
  intro h
  rw [show extract_symbol_robust "What is the day" = some "WHAT" from by decide] at h
  exact Option.noConfusion h

/-- C5 amended.  The resolver returns `none` exactly under the mechanism
the code implements: when no dictionary key occurs in the upper-cased text
and, additionally, every 3-5-letter uppercase token is in the stoplist.
The claim's example `What is the day` does not satisfy the second
condition (`WHAT` is absent from the stoplist) and resolves to `WHAT`. -/
theorem c5_stoplist_amended (message : String)
    (hdict : scanDict stockMapping (pyUpper message) = none)
    (hstop : ∀ t ∈ tickerCands (pyUpper message), excludeWords.contains t = true) :
    extract_symbol_robust message = none := by
  simp only [extract_symbol_robust, hdict]
  exact firstTicker_none_of_all_excluded _ hstop

/-- Witness for the amended C5 on `the day`, whose tokens `THE` and `DAY`
are both stopped. -/
theorem c5_stoplist_amended_witness :
    scanDict stockMapping (pyUpper "the day") = none ∧
    (∀ t ∈ tickerCands (pyUpper "the day"), excludeWords.contains t = true) ∧
    extract_symbol_robust "the day" = none :=
  ⟨by decide, by decide, c5_stoplist_amended "the day" (by decide) (by decide)⟩

/-- C6 counterexample.  The claim's example `Tell me a joke` does not reach
the completion provider: the resolver finds the surviving token `TELL`
(absent from the stoplist), the stage-8 fallback classifies the message as
an equity-price query, and `chat` answers with the price adapter's text
(here the fallback's not-configured text), not the completion output
(`hola` in this environment). -/
theorem c6_joke_counterexample :
    extract_symbol_robust "Tell me a joke" = some "TELL" ∧
    decide_tool "Tell me a joke" = some ToolName.get_stock_price ∧
    decide_tool "Tell me a joke" ≠ none ∧
    chat envRate "Tell me a joke" = "Alpha Vantage API key not configured for TELL" ∧
    chat envRate "Tell me a joke" ≠ "hola" := by decide

/-- C6 amended.  For every message that the classifier maps to no
capability — which requires the Symbol Resolver to find no symbol, since
stage 8 otherwise classifies to the price capability — `chat` returns the
completion provider's output text verbatim.  `Tell me a joke` is not such
a message (it resolves to `TELL`); `ok` is. -/
theorem c6_no_match_amended (env : Env) (message response : String)
    (hd : decide_tool message = none)
    (hl : env.llmComplete message = Except.ok response) :
    chat env message = response := by
  simp only [chat, chatE, hd, hl]

/-- Witness for the amended C6 on the input `ok`. -/
theorem c6_no_match_amended_witness :
    decide_tool "ok" = none ∧ envRate.llmComplete "ok" = Except.ok "hola" ∧
    chat envRate "ok" = "hola" :=
  ⟨by decide, rfl, c6_no_match_amended envRate "ok" "hola" (by decide) rfl⟩

/-- C7 counterexample.  A message containing the hyphenated keyword
`52-week` satisfies the claim's premises — no stage-1 arithmetic shape, no
price keyword, no operator outside the keyword itself, and the info rule
would match — yet classification returns the calculation capability: the
`-` inside `52-week` triggers the stage-2 operator scan, which checks the
whole message. -/
theorem c7_52week_counterexample :
    mathStage1 (pyLower "52-week high of AAPL") = false ∧
    priceStage (pyLower "52-week high of AAPL") = false ∧
    infoStage (pyLower "52-week high of AAPL") = true ∧
    decide_tool "52-week high of AAPL" = some ToolName.mathematical_calculation ∧
    decide_tool "52-week high of AAPL" ≠ some ToolName.get_stock_info := by decide

/-- C7 amended.  A message containing an info keyword classifies to the
detailed-info capability provided the earlier stages all fail on it, which
for the stage-2 scan means no operator character and no function-name
substring anywhere in the message, including inside keywords — so the
hyphen-free forms (`info`, `market cap`, `volume`, `52 week`,
`capitalization`) qualify but hyphenated `52-week` does not. -/
theorem c7_info_stage_amended (message : String)
    (h1 : mathStage1 (pyLower message) = false)
    (h2 : mathStage2 message = false)
    (h3 : priceStage (pyLower message) = false)
    (h4 : infoStage (pyLower message) = true) :
    decide_tool message = some ToolName.get_stock_info := by
  simp [decide_tool, h1, h2, h3, h4]

/-- Witness for the amended C7 on `info on AAPL`. -/
theorem c7_info_stage_amended_witness :
    mathStage1 (pyLower "info on AAPL") = false ∧
    mathStage2 "info on AAPL" = false ∧
    priceStage (pyLower "info on AAPL") = false ∧
    infoStage (pyLower "info on AAPL") = true ∧
    decide_tool "info on AAPL" = some ToolName.get_stock_info :=
  ⟨by decide, by decide, by decide, by decide,
   c7_info_stage_amended "info on AAPL" (by decide) (by decide) (by decide) (by decide)⟩

/-- C8.  When the classifier picks a symbol-arity capability but the
Symbol Resolver finds no symbol, `chat` returns the fixed localized
please-specify-a-symbol prompt for that capability; the environment is
universally quantified and absent from the right-hand side, so no provider
adapter is consulted. -/
theorem c8_missing_symbol_prompt (env : Env) (message : String) (t : ToolName)
    (hd : decide_tool message = some t)
    (ht : t = ToolName.get_stock_price ∨ t = ToolName.get_stock_info ∨
      t = ToolName.get_crypto_price ∨ t = ToolName.get_historical_data ∨
      t = ToolName.calculate_average_price)
    (hs : extract_symbol_robust message = none) :
    chat env message = symbolPrompt t := by
  rcases ht with h | h | h | h | h <;> subst h <;>
    simp only [chat, chatE, hd, hs, symbolPrompt]

/-- Witness for C8 on `pricey?`: the price keyword matches inside
`pricey` while the upper-cased text has no dictionary key and no 3-5
letter token. -/
theorem c8_missing_symbol_prompt_witness :
    decide_tool "pricey?" = some ToolName.get_stock_price ∧
    extract_symbol_robust "pricey?" = none ∧
    chat envRate "pricey?" = symbolPrompt ToolName.get_stock_price :=
  ⟨by decide, by decide,
   c8_missing_symbol_prompt envRate "pricey?" ToolName.get_stock_price (by decide)
     (Or.inl rfl) (by decide)⟩

/-- C9.  For every non-empty history whose previous close is nonzero, the
historical-data success text reports the change
`(latest - previous) / previous * 100` rendered by the two-decimal
formatter, where `previous` is the second-to-last close when the history
has more than one point and the latest close itself otherwise — so a
one-point history reports a change of zero. -/
theorem c9_change_formula (env : Env) (symbol period : String) (closes : List ℚ)
    (hh : env.yfHistory (pyUpper symbol) period = Except.ok closes)
    (hne : closes ≠ [])
    (hprev : prevCloseOf closes ≠ 0) :
    get_historical_data env symbol period =
      "Historical data for " ++ pyUpper symbol ++ " (" ++ period ++ "):\n" ++
      "Latest Close: $" ++ fmt2 (lastCloseOf closes) ++ "\n" ++
      "Previous Close: $" ++ fmt2 (prevCloseOf closes) ++ "\n" ++
      "Change: " ++
        fmt2 ((lastCloseOf closes - prevCloseOf closes) / prevCloseOf closes * 100) ++
      "%\n" ∧
    (∀ c : ℚ, closes = [c] →
      (lastCloseOf closes - prevCloseOf closes) / prevCloseOf closes * 100 = 0) := by
  constructor
  · have hemp : closes.isEmpty = false := by
      cases closes with
      | nil => exact absurd rfl hne
      | cons a t => rfl
    simp [get_historical_data, hh, hemp]
  · intro c hc
    subst hc
    have hp : prevCloseOf [c] = c := by
      simp [prevCloseOf, lastCloseOf]
    have hl : lastCloseOf [c] = c := rfl
    rw [hl, hp]
    simp

/-- Witness for C9 on a one-point history with close `5`: the reported
change is `0.00%`. -/
theorem c9_change_formula_witness :
    envHist1.yfHistory (pyUpper "aapl") "1mo" = Except.ok [5] ∧
    ([5] : List ℚ) ≠ [] ∧
    prevCloseOf [5] ≠ 0 ∧
    get_historical_data envHist1 "aapl" "1mo" =
      "Historical data for AAPL (1mo):\nLatest Close: $5.00\nPrevious Close: $5.00\nChange: 0.00%\n" := by
  have h := c9_change_formula envHist1 "aapl" "1mo" [5] rfl (by simp) (by decide)
  refine ⟨rfl, by simp, by decide, ?_⟩
  rw [h.1, h.2 5 rfl]
  decide

/-- C10.  The Symbol Resolver's dictionary phase matches keys as raw
substrings of the upper-cased message in insertion order, before the token
scan and the stoplist are consulted: whenever the first-match search over
the dictionary finds a key, the resolver returns that key's ticker.  The
key may be embedded inside a longer word — `together` contains `ETH` — and
among several occurring keys insertion order wins: `ethereum tesla`
resolves to `TSLA` because `TESLA` precedes `ETHEREUM` in the dictionary
even though `ETHEREUM` appears first in the message. -/
theorem c10_dict_first_match :
    (∀ message k v : String,
      stockMapping.find? (fun kv => subStr kv.1 (pyUpper message)) = some (k, v) →
      extract_symbol_robust message = some v) ∧
    extract_symbol_robust "together" = some "ETH" ∧
    extract_symbol_robust "ethereum tesla" = some "TSLA" := by
  refine ⟨?_, by decide, by decide⟩
  intro message k v hf
  have hs : scanDict stockMapping (pyUpper message) = some v := by
    rw [scanDict_eq_find? stockMapping (pyUpper message), hf]
    rfl
  simp only [extract_symbol_robust, hs]

/-- Witness for C10 at the embedded-key input `together`. -/
theorem c10_dict_first_match_witness :
    stockMapping.find? (fun kv => subStr kv.1 (pyUpper "together")) = some ("ETH", "ETH") ∧
    extract_symbol_robust "together" = some "ETH" :=
  ⟨by decide, c10_dict_first_match.1 "together" "ETH" "ETH" (by decide)⟩
